import Mathlib

/-!
Verification of the Flix movie backend (`src/main.py`) against its
specification.  The backend stores movie documents in a single "movie"
collection of a document store, exposes an idempotent seed endpoint, a
rows endpoint grouping movies by category (with a static fallback), and
a diagnostics endpoint.

Documents are modelled as association lists of string keys to dynamic
values (`Val`), mirroring Python dicts; the store gateway
(`database.py`, not part of the sources) is modelled from the spec.
-/

namespace Flix

/-- Dynamic values stored in documents, mirroring the Python values the
backend handles: strings, integers, floats (modelled as rationals,
since the code only passes them through and never computes with them),
`None`, and BSON ObjectIds (carrying their hex string form). -/
inductive Val where
  | vStr : String → Val
  | vInt : Int → Val
  | vFloat : Rat → Val
  | vNull : Val
  | vOid : String → Val
deriving DecidableEq, Repr

open Val

/-- A document / dict: an association list from keys to values, in
insertion order (Python dicts preserve insertion order). -/
abbrev Doc := List (String × Val)

/-- A serialized response record has the same shape. -/
abbrev Rec := List (String × Val)

/-- Lookup of a key in a dict, returning `none` when absent
(the key-present side of Python `d.get(k)`). -/
def aget : List (String × Val) → String → Option Val
  | [], _ => none
  | (k, v) :: rest, key => if k = key then some v else aget rest key

/-- Python `d.get(k)`: the stored value, or `None` when the key is absent. -/
def vget (d : List (String × Val)) (key : String) : Val :=
  (aget d key).getD vNull

/-- Python truthiness of a value (`bool(x)`): `None`, `""`, `0` and `0.0`
are falsy, everything else the backend handles is truthy. -/
def truthy : Val → Bool
  | vNull => false
  | vStr s => s ≠ ""
  | vInt n => n ≠ 0
  | vFloat q => q ≠ 0
  | vOid _ => true

/-- Python `x or y`. -/
def pyOr (x y : Val) : Val := if truthy x then x else y

/-- Python `str(x)` for the values that can appear as a document `_id`
(an ObjectId, a string, or `None`); numeric cases use Lean rendering and
are never exercised by the claims. -/
def pyStr : Val → String
  | vStr s => s
  | vNull => "None"
  | vOid h => h
  | vInt n => toString n
  | vFloat q => toString q

/-- Embedding of `serialize_movie` (src/main.py lines 27-38): a falsy
(empty) dict maps to the empty dict, otherwise to the seven-field
response record, with missing fields surfacing as `None`. -/
def serialize_movie (doc : Doc) : Rec :=
  if doc = [] then []
  else
    [("id", vStr (pyStr (vget doc "_id"))),
     ("title", vget doc "title"),
     ("image", vget doc "image"),
     ("category", vget doc "category"),
     ("description", vget doc "description"),
     ("year", vget doc "year"),
     ("rating", vget doc "rating")]

/-- Modelled from the spec: `count(collectionName)` of the Store Gateway
(`database.py`, absent from the sources) returns the number of documents
in the collection. -/
def count_documents (store : List Doc) : Nat := store.length

/-- Modelled from the spec: `insert(collectionName, record)` of the Store
Gateway (`create_document` in `database.py`, absent from the sources)
appends the record as one persisted document, with a store-generated
unique id, modelled as the insertion index. -/
def create_document (store : List Doc) (record : Doc) : List Doc :=
  store ++ [("_id", vOid (toString store.length)) :: record]

/-- The fixed list of ten sample movies from `seed_movies`
(src/main.py lines 50-131). -/
def sample_movies : List Doc :=
  [[("title", vStr "Inception"),
    ("image", vStr "https://image.tmdb.org/t/p/w780/s3TBrRGB1iav7gFOCNx3H31MoES.jpg"),
    ("category", vStr "Popular on FLIX"),
    ("description", vStr "A thief who steals corporate secrets through dream-sharing tech."),
    ("year", vInt 2010),
    ("rating", vFloat (88/10))],
   [("title", vStr "Interstellar"),
    ("image", vStr "https://image.tmdb.org/t/p/w780/rAiYTfKGqDCRIIqo664sY9XZIvQ.jpg"),
    ("category", vStr "Trending Now"),
    ("description", vStr "A team travels through a wormhole in search of a new home for mankind."),
    ("year", vInt 2014),
    ("rating", vFloat (86/10))],
   [("title", vStr "The Dark Knight"),
    ("image", vStr "https://image.tmdb.org/t/p/w780/qJ2tW6WMUDux911r6m7haRef0WH.jpg"),
    ("category", vStr "Top Picks for You"),
    ("description", vStr "Batman faces the Joker, a criminal mastermind."),
    ("year", vInt 2008),
    ("rating", vFloat (90/10))],
   [("title", vStr "Dune"),
    ("image", vStr "https://image.tmdb.org/t/p/w780/d5NXSklXo0qyIYkgV94XAgMIckC.jpg"),
    ("category", vStr "Because you watched Sci‑Fi"),
    ("description", vStr "Paul Atreides must travel to the most dangerous planet in the universe."),
    ("year", vInt 2021),
    ("rating", vFloat (82/10))],
   [("title", vStr "Joker"),
    ("image", vStr "https://image.tmdb.org/t/p/w780/udDclJoHjfjb8Ekgsd4FDteOkCU.jpg"),
    ("category", vStr "Popular on FLIX"),
    ("description", vStr "The origin story of the iconic villain."),
    ("year", vInt 2019),
    ("rating", vFloat (84/10))],
   [("title", vStr "Spider‑Verse"),
    ("image", vStr "https://image.tmdb.org/t/p/w780/8Vt6mWEReuy4Of61Lnj5Xj704m8.jpg"),
    ("category", vStr "Trending Now"),
    ("description", vStr "Miles Morales returns for the next chapter of the Spider‑Verse saga."),
    ("year", vInt 2023),
    ("rating", vFloat (87/10))],
   [("title", vStr "Oppenheimer"),
    ("image", vStr "https://image.tmdb.org/t/p/w780/8Gxv8gSFCU0XGDykEGv7zR1n2ua.jpg"),
    ("category", vStr "Top Picks for You"),
    ("description", vStr "The story of J. Robert Oppenheimer and the atomic bomb."),
    ("year", vInt 2023),
    ("rating", vFloat (85/10))],
   [("title", vStr "Barbie"),
    ("image", vStr "https://image.tmdb.org/t/p/w780/iuFNMS8U5cb6xfzi51Dbkovj7vM.jpg"),
    ("category", vStr "Because you watched Sci‑Fi"),
    ("description", vStr "Barbie and Ken\u0027s adventures in the real world."),
    ("year", vInt 2023),
    ("rating", vFloat (72/10))],
   [("title", vStr "Avatar: The Way of Water"),
    ("image", vStr "https://image.tmdb.org/t/p/w780/t6HIqrRAclMCA60NsSmeqe9RmNV.jpg"),
    ("category", vStr "Popular on FLIX"),
    ("description", vStr "Jake Sully lives with his newfound family on Pandora."),
    ("year", vInt 2022),
    ("rating", vFloat (76/10))],
   [("title", vStr "John Wick 4"),
    ("image", vStr "https://image.tmdb.org/t/p/w780/vZloFAK7NmvMGKE7VkF5UHaz0I.jpg"),
    ("category", vStr "Trending Now"),
    ("description", vStr "John Wick uncovers a path to defeating The High Table."),
    ("year", vInt 2023),
    ("rating", vFloat (79/10))]]

/-- Response body of `POST /api/seed`. -/
structure SeedResp where
  status : String
  inserted : Nat
  message : Option String
deriving DecidableEq, Repr

/-- The insertion loop of `seed_movies` (src/main.py lines 133-136):
each sample record is persisted via `create_document` and the `inserted`
counter is incremented. -/
def seedLoop : List Doc → List Doc → Nat → List Doc × Nat
  | [], store, n => (store, n)
  | m :: rest, store, n => seedLoop rest (create_document store m) (n + 1)

/-- Embedding of `seed_movies` (src/main.py lines 41-138).  The input is
the state of the "movie" collection, `none` when the gateway has no
connection (`db is None`).  The output is the HTTP result — an error
`(status code, detail)` for a raised `HTTPException`, or the JSON body —
paired with the resulting collection state. -/
def seed_movies (db : Option (List Doc)) :
    Except (Nat × String) SeedResp × Option (List Doc) :=
  match db with
  | none => (Except.error (500, "Database not configured"), none)
  | some store =>
    if count_documents store > 0 then
      (Except.ok ⟨"ok", 0, some "Movies already seeded"⟩, some store)
    else
      let r := seedLoop sample_movies store 0
      (Except.ok ⟨"ok", r.2, none⟩, some r.1)

/-- The grouping key of a serialized movie in `get_rows`
(src/main.py line 152): `m.get("category") or "Featured"`. -/
def catOf (m : Rec) : Val := pyOr (vget m "category") (vStr "Featured")

/-- Python `rows.setdefault(cat, []).append(m)` on an insertion-ordered
dict: append `m` to the existing entry for `cat`, or add a new entry
`(cat, [m])` at the end. -/
def addRow (rows : List (Val × List Rec)) (cat : Val) (m : Rec) :
    List (Val × List Rec) :=
  match rows with
  | [] => [(cat, [m])]
  | (k, v) :: rest =>
    if k = cat then (k, v ++ [m]) :: rest else (k, v) :: addRow rest cat m

/-- The grouping loop of `get_rows` (src/main.py lines 150-153). -/
def groupRows (ms : List Rec) : List (Val × List Rec) :=
  ms.foldl (fun rows m => addRow rows (catOf m) m) []

/-- Lookup of a category in the rows mapping; an absent category reads
as the empty list. -/
def findRow : List (Val × List Rec) → Val → List Rec
  | [], _ => []
  | (k, v) :: rest, cat => if k = cat then v else findRow rest cat

/-- The fixed static fallback mapping of `get_rows`
(src/main.py lines 157-196). -/
def fallback : List (Val × List Rec) :=
  [(vStr "Popular on FLIX",
    [[("id", vStr "1"), ("title", vStr "Inception"),
      ("image", vStr "https://image.tmdb.org/t/p/w780/s3TBrRGB1iav7gFOCNx3H31MoES.jpg")],
     [("id", vStr "2"), ("title", vStr "Interstellar"),
      ("image", vStr "https://image.tmdb.org/t/p/w780/rAiYTfKGqDCRIIqo664sY9XZIvQ.jpg")]]),
   (vStr "Trending Now",
    [[("id", vStr "3"), ("title", vStr "The Dark Knight"),
      ("image", vStr "https://image.tmdb.org/t/p/w780/qJ2tW6WMUDux911r6m7haRef0WH.jpg")],
     [("id", vStr "4"), ("title", vStr "Dune"),
      ("image", vStr "https://image.tmdb.org/t/p/w780/d5NXSklXo0qyIYkgV94XAgMIckC.jpg")]]),
   (vStr "Top Picks for You",
    [[("id", vStr "5"), ("title", vStr "Joker"),
      ("image", vStr "https://image.tmdb.org/t/p/w780/udDclJoHjfjb8Ekgsd4FDteOkCU.jpg")]]),
   (vStr "Because you watched Sci‑Fi",
    [[("id", vStr "6"), ("title", vStr "Spider‑Verse"),
      ("image", vStr "https://image.tmdb.org/t/p/w780/8Vt6mWEReuy4Of61Lnj5Xj704m8.jpg")]])]

/-- The state of the "movie" collection as seen by `get_documents`
(`database.py`, absent from the sources): either the list of stored
documents, or a raised exception carrying a message. -/
abbrev StoreRead := Except String (List Doc)

/-- The `try/except` around `get_documents("movie")` in `get_rows`
(src/main.py lines 143-147): any exception yields the empty list. -/
def docsOf : StoreRead → List Doc
  | Except.ok ds => ds
  | Except.error _ => []

/-- The grouped rows mapping computed by `get_rows` before the fallback
check (src/main.py lines 148-153). -/
def rowsOf (store : StoreRead) : List (Val × List Rec) :=
  groupRows ((docsOf store).map serialize_movie)

/-- Embedding of `get_rows` (src/main.py lines 141-199): group the
serialized movies by category and fall back to the static mapping when
the grouping is empty. -/
def get_rows (store : StoreRead) : List (Val × List Rec) :=
  if rowsOf store = [] then fallback else rowsOf store

/-- The database state observed by the `/test` endpoint: importing the
module may fail, accessing it may raise, `db` may be `None`, or a
connection exists with an optional name and a collection listing that
either succeeds or raises. -/
inductive DbState where
  | importFailed (msg : String)
  | accessError (msg : String)
  | notConfigured
  | connected (nm : Option String) (listing : Except String (List String))

/-- Response body of `GET /test`: the keys of the `response` dict built
in `test_database` (src/main.py lines 204-211); `database_url` and
`database_name` start as `None`. -/
structure TestResp where
  backend : String
  database : String
  database_url : Option String
  database_name : Option String
  connection_status : String
  collections : List String
deriving DecidableEq, Repr

/-- Embedding of `test_database` (src/main.py lines 201-240): build the
default response, refine it by database state with every exception
absorbed into a status string, truncate the collection listing to 10
names, and finally overwrite the url/name flags from the environment.
The first component is the HTTP status: the handler never raises, so it
is always 200. -/
def test_database (st : DbState) (urlSet nameSet : Bool) : Nat × TestResp :=
  let base : TestResp :=
    ⟨"✅ Running", "❌ Not Available", none, none, "Not Connected", []⟩
  let r : TestResp :=
    match st with
    | DbState.importFailed _ =>
      ⟨base.backend, "❌ Database module not found (run enable-database first)",
       base.database_url, base.database_name, base.connection_status, base.collections⟩
    | DbState.accessError msg =>
      ⟨base.backend, "❌ Error: " ++ msg.take 50,
       base.database_url, base.database_name, base.connection_status, base.collections⟩
    | DbState.notConfigured =>
      ⟨base.backend, "⚠️  Available but not initialized",
       base.database_url, base.database_name, base.connection_status, base.collections⟩
    | DbState.connected nm listing =>
      match listing with
      | Except.ok cols =>
        ⟨base.backend, "✅ Connected & Working", some "✅ Configured",
         some (nm.getD "✅ Connected"), "Connected", cols.take 10⟩
      | Except.error e =>
        ⟨base.backend, "⚠️  Connected but Error: " ++ e.take 50, some "✅ Configured",
         some (nm.getD "✅ Connected"), "Connected", base.collections⟩
  (200,
   ⟨r.backend, r.database,
    some (if urlSet then "✅ Set" else "❌ Not Set"),
    some (if nameSet then "✅ Set" else "❌ Not Set"),
    r.connection_status, r.collections⟩)

lemma findRow_addRow (rows : List (Val × List Rec)) (c cat : Val) (m : Rec) :
    findRow (addRow rows c m) cat =
      findRow rows cat ++ if c = cat then [m] else [] := by
  induction rows with
  | nil =>
    by_cases h : c = cat <;> simp [addRow, findRow, h]
  | cons p rest ih =>
    obtain ⟨k, v⟩ := p
    by_cases hkc : k = c
    · subst hkc
      by_cases hkcat : k = cat
      · subst hkcat
        simp [addRow, findRow]
      · simp [addRow, findRow, hkcat]
    · by_cases hkcat : k = cat
      · subst hkcat
        have hc : ¬ c = k := fun h => hkc h.symm
        simp [addRow, findRow, hkc, hc]
      · simp [addRow, findRow, hkc, hkcat, ih]

lemma findRow_foldl (ms : List Rec) (acc : List (Val × List Rec)) (cat : Val) :
    findRow (ms.foldl (fun rows m => addRow rows (catOf m) m) acc) cat =
      findRow acc cat ++ ms.filter (fun m => decide (catOf m = cat)) := by
  induction ms generalizing acc with
  | nil => simp
  | cons m rest ih =>
    simp only [List.foldl_cons, ih, findRow_addRow, List.filter_cons]
    by_cases h : catOf m = cat <;> simp [h]

/-- Grouping preserves store order within each category: the sequence a
category maps to is exactly the subsequence of serialized movies having
that grouping key. -/
lemma findRow_groupRows (ms : List Rec) (cat : Val) :
    findRow (groupRows ms) cat =
      ms.filter (fun m => decide (catOf m = cat)) := by
  simpa [groupRows, findRow] using findRow_foldl ms [] cat

/-- The grouping key is never the empty-string label: a falsy category
is replaced by "Featured" and a truthy string is nonempty. -/
lemma catOf_ne_empty (m : Rec) : catOf m ≠ vStr "" := by
  unfold catOf pyOr
  by_cases h : truthy (vget m "category")
  · simp only [h, if_true]
    intro hEq
    rw [hEq] at h
    simp [truthy] at h
  · simp [h]

/-- Any record whose grouping key is "Featured" appears in the
"Featured" row of the grouping. -/
lemma mem_featured (ms : List Rec) (m : Rec) (hmem : m ∈ ms)
    (hcat : catOf m = vStr "Featured") :
    m ∈ findRow (groupRows ms) (vStr "Featured") := by
  rw [findRow_groupRows]
  exact List.mem_filter.mpr ⟨hmem, by simp [hcat]⟩

end Flix

namespace Flix

open Val

/-- C1: seeding is idempotent — on an empty "movie" collection the seed
operation inserts the fixed sample list of 10 records and reports
status "ok" with inserted = 10; invoking it again on the resulting
store inserts nothing, reports inserted = 0 with a message, and the
store still holds exactly 10 documents, not 20. -/
theorem seed_idempotent :
    (seed_movies (some [])).1 = Except.ok ⟨"ok", 10, none⟩ ∧
    ((seed_movies (some [])).2.getD []).length = 10 ∧
    (seed_movies (seed_movies (some [])).2).1 =
      Except.ok ⟨"ok", 0, some "Movies already seeded"⟩ ∧
    (seed_movies (seed_movies (some [])).2).2 = (seed_movies (some [])).2 := by
  refine ⟨rfl, rfl, rfl, rfl⟩

/-- C2: whenever the grouping of `get_rows` yields an empty mapping
(store empty or unreachable), the endpoint returns exactly the fixed
fallback mapping: the four category labels in order, the literal ids
"1".."6" distributed 2/2/1/1, and each entry carrying exactly the
fields id, title, image. -/
theorem rows_fallback_exact (store : StoreRead) (h : rowsOf store = []) :
    get_rows store = fallback ∧
    fallback.map Prod.fst =
      [vStr "Popular on FLIX", vStr "Trending Now", vStr "Top Picks for You",
       vStr "Because you watched Sci‑Fi"] ∧
    fallback.map (fun p => p.2.map (fun r => aget r "id")) =
      [[some (vStr "1"), some (vStr "2")], [some (vStr "3"), some (vStr "4")],
       [some (vStr "5")], [some (vStr "6")]] ∧
    fallback.map (fun p => p.2.map (fun r => r.map Prod.fst)) =
      [[["id", "title", "image"], ["id", "title", "image"]],
       [["id", "title", "image"], ["id", "title", "image"]],
       [["id", "title", "image"]], [["id", "title", "image"]]] := by
  exact ⟨by simp [get_rows, h], rfl, rfl, rfl⟩

/-- Witness for C2: the empty store satisfies the hypothesis. -/
theorem rows_fallback_exact_witness :
    rowsOf (Except.ok []) = [] ∧ get_rows (Except.ok []) = fallback :=
  ⟨rfl, (rows_fallback_exact (Except.ok []) rfl).1⟩

/-- C3: grouping is order-preserving within each category — a category
key maps to exactly the subsequence of serialized movies carrying that
key, in store order; in particular for stored movies
[A(cat=X), B(cat=Y), C(cat=X)] the response maps X to [A, C]. -/
theorem grouping_order_preserving :
    (∀ (docs : List Doc) (cat : Val),
      findRow (rowsOf (Except.ok docs)) cat =
        (docs.map serialize_movie).filter (fun m => decide (catOf m = cat))) ∧
    (let a : Doc := [("_id", vOid "a"), ("title", vStr "A"), ("category", vStr "X")]
     let b : Doc := [("_id", vOid "b"), ("title", vStr "B"), ("category", vStr "Y")]
     let c : Doc := [("_id", vOid "c"), ("title", vStr "C"), ("category", vStr "X")]
     findRow (get_rows (Except.ok [a, b, c])) (vStr "X") =
       [serialize_movie a, serialize_movie c]) := by
  refine ⟨fun docs cat => findRow_groupRows _ _, ?_⟩
  decide

/-- C4: a store read failure is handled exactly like an empty store —
`get_rows` absorbs any raised exception and answers with the fallback
mapping (HTTP 200), never an error response. -/
theorem rows_absorbs_read_failure (msg : String) :
    get_rows (Except.error msg) = get_rows (Except.ok []) ∧
    get_rows (Except.error msg) = fallback :=
  ⟨rfl, rfl⟩

/-- C5: with no established connection (`db is None`), the seed
endpoint raises HTTP 500 "Database not configured" before touching the
store, and the store state is unchanged. -/
theorem seed_unavailable_500 :
    seed_movies none = (Except.error (500, "Database not configured"), none) :=
  rfl

/-- C6: for a stored movie having `_id`, title, image and category,
each missing optional field (description, year, rating) serializes to
null, while id, title, image and category are all present in the
output; serialization is a total function and never raises. -/
theorem serialize_missing_optional_null (doc : Doc)
    (hid : (aget doc "_id").isSome) (ht : (aget doc "title").isSome)
    (him : (aget doc "image").isSome) (hc : (aget doc "category").isSome) :
    (aget doc "description" = none →
      aget (serialize_movie doc) "description" = some vNull) ∧
    (aget doc "year" = none → aget (serialize_movie doc) "year" = some vNull) ∧
    (aget doc "rating" = none → aget (serialize_movie doc) "rating" = some vNull) ∧
    (aget (serialize_movie doc) "id").isSome ∧
    (aget (serialize_movie doc) "title").isSome ∧
    (aget (serialize_movie doc) "image").isSome ∧
    (aget (serialize_movie doc) "category").isSome := by
  have hne : doc ≠ [] := by
    intro hnil
    rw [hnil] at hid
    simp [aget] at hid
  refine ⟨?_, ?_, ?_, ?_, ?_, ?_, ?_⟩ <;>
    first
      | (intro h; simp [serialize_movie, hne, aget, vget, h])
      | simp [serialize_movie, hne, aget]

/-- Witness for C6: a document with only the four required fields. -/
theorem serialize_missing_optional_null_witness :
    (let d : Doc := [("_id", vOid "0"), ("title", vStr "T"),
                     ("image", vStr "I"), ("category", vStr "Drama")]
     (aget d "_id").isSome ∧ (aget d "title").isSome ∧
     (aget d "image").isSome ∧ (aget d "category").isSome ∧
     ((aget d "description" = none →
        aget (serialize_movie d) "description" = some vNull) ∧
      (aget d "year" = none → aget (serialize_movie d) "year" = some vNull) ∧
      (aget d "rating" = none → aget (serialize_movie d) "rating" = some vNull) ∧
      (aget (serialize_movie d) "id").isSome ∧
      (aget (serialize_movie d) "title").isSome ∧
      (aget (serialize_movie d) "image").isSome ∧
      (aget (serialize_movie d) "category").isSome)) :=
  ⟨by decide, by decide, by decide, by decide,
   serialize_missing_optional_null _ (by decide) (by decide) (by decide) (by decide)⟩

/-- C7: a stored movie with no category attribute is grouped under the
key "Featured" by the rows operation. -/
theorem no_category_under_featured (docs : List Doc) (doc : Doc)
    (hmem : doc ∈ docs) (hcat : aget doc "category" = none) :
    serialize_movie doc ∈ findRow (rowsOf (Except.ok docs)) (vStr "Featured") := by
  show serialize_movie doc ∈
    findRow (groupRows (docs.map serialize_movie)) (vStr "Featured")
  apply mem_featured
  · exact List.mem_map_of_mem _ hmem
  · by_cases h : doc = []
    · subst h; rfl
    · simp [catOf, serialize_movie, h, vget, aget, hcat, pyOr, truthy]

/-- Witness for C7: one stored movie with a title but no category. -/
theorem no_category_under_featured_witness :
    (let d : Doc := [("title", vStr "t")]
     d ∈ [d] ∧ aget d "category" = none ∧
     serialize_movie d ∈ findRow (rowsOf (Except.ok [d])) (vStr "Featured")) :=
  ⟨List.mem_singleton_self _, rfl,
   no_category_under_featured [[("title", vStr "t")]] [("title", vStr "t")]
     (List.mem_singleton_self _) rfl⟩

/-- C8 counterexample: the claim that serialization maps EVERY input,
the empty document included, to a fully-shaped seven-attribute object
fails — the empty document serializes to the empty object, which does
not even contain the attribute "id". -/
theorem serialize_empty_lacks_fields :
    serialize_movie [] = [] ∧ aget (serialize_movie []) "id" = none :=
  ⟨rfl, rfl⟩

/-- C8 amended: serialization is a pure total function; every NONEMPTY
(possibly partial) document serializes to the fully-shaped object whose
keys are exactly the seven public attributes, while the empty document
maps to the empty object; no input fails. -/
theorem serialize_total_shape (doc : Doc) (h : doc ≠ []) :
    (serialize_movie doc).map Prod.fst =
      ["id", "title", "image", "category", "description", "year", "rating"] := by
  simp [serialize_movie, h]

/-- Witness for C8 amended: a one-field document. -/
theorem serialize_total_shape_witness :
    ([("title", vStr "t")] : Doc) ≠ [] ∧
    (serialize_movie [("title", vStr "t")]).map Prod.fst =
      ["id", "title", "image", "category", "description", "year", "rating"] :=
  ⟨by decide, serialize_total_shape [("title", vStr "t")] (by decide)⟩

/-- C9: the `/test` endpoint returns HTTP 200 for every database state
(import failure, access error, unconfigured, connected with or without
a listing error) and every environment, and the collections it reports
never exceed 10 names. -/
theorem test_always_200 (st : DbState) (urlSet nameSet : Bool) :
    (test_database st urlSet nameSet).1 = 200 ∧
    (test_database st urlSet nameSet).2.collections.length ≤ 10 := by
  refine ⟨rfl, ?_⟩
  cases st with
  | importFailed msg => simp [test_database]
  | accessError msg => simp [test_database]
  | notConfigured => simp [test_database]
  | connected nm listing =>
    cases listing with
    | ok cols => simp [test_database, List.length_take]
    | error e => simp [test_database]

/-- C10: the grouping treats every falsy serialized category — null or
the empty string — as "Featured": such a movie lands in the "Featured"
row, and the empty-string label can never occur as a row key. -/
theorem falsy_category_under_featured (docs : List Doc) (doc : Doc)
    (hmem : doc ∈ docs)
    (hcat : vget (serialize_movie doc) "category" = vNull ∨
            vget (serialize_movie doc) "category" = vStr "") :
    serialize_movie doc ∈ findRow (rowsOf (Except.ok docs)) (vStr "Featured") ∧
    ∀ ms : List Rec, findRow (groupRows ms) (vStr "") = [] := by
  constructor
  · show serialize_movie doc ∈
      findRow (groupRows (docs.map serialize_movie)) (vStr "Featured")
    apply mem_featured
    · exact List.mem_map_of_mem _ hmem
    · rcases hcat with h | h <;> simp [catOf, pyOr, truthy, h]
  · intro ms
    rw [findRow_groupRows]
    exact List.filter_eq_nil_iff.mpr fun m _ => by
      simpa using catOf_ne_empty m

/-- Witness for C10: a movie stored with category "". -/
theorem falsy_category_under_featured_witness :
    (let d : Doc := [("title", vStr "t"), ("category", vStr "")]
     d ∈ [d] ∧
     (vget (serialize_movie d) "category" = vNull ∨
      vget (serialize_movie d) "category" = vStr "") ∧
     serialize_movie d ∈ findRow (rowsOf (Except.ok [d])) (vStr "Featured")) :=
  ⟨List.mem_singleton_self _, Or.inr (by decide),
   (falsy_category_under_featured [[("title", vStr "t"), ("category", vStr "")]]
     [("title", vStr "t"), ("category", vStr "")]
     (List.mem_singleton_self _) (Or.inr (by decide))).1⟩

end Flix
